import Mathlib

/-!
Verification of the comorbidipy scoring engine (`comorbidipy/calculator.py`,
`comorbidipy/assignzero.py`) against its specification.

The pandas pipeline is shallowly embedded: a dataframe of (id, code) rows
becomes a list of pairs, a pivoted per-identifier row becomes a function from
column name to 0/1 flag, and the Python dict-based lookup tables become
association lists (whose iteration order is the list order, matching Python's
insertion-ordered dicts).
-/

namespace Comorbidipy

/-- Python `c.startswith(p)` on strings: `p` is a leading substring of `c`. -/
def strStartsWith (c p : String) : Bool :=
  p.data.isPrefixOf c.data

/-- Python `sub in s` substring containment test. -/
def strContains (s sub : String) : Bool :=
  (List.range (s.data.length + 1)).any (fun i => sub.data.isPrefixOf (s.data.drop i))

/-- One mapping-table entry matches a code when any of its prefixes starts the
code: Python `i.startswith(tuple(v))` (calculator.py line 120). -/
def entryMatches (c : String) (v : List String) : Bool :=
  v.any (fun p => strStartsWith c p)

/-- Lines 116-121 of calculator.py: the reverse-mapping dict comprehension,
specialised to a single code. The comprehension iterates the mapping table in
order and each matching entry overwrites the dict slot for the code, so the
LAST matching entry wins; a code matching no entry is absent (`none`). -/
def classify (tbl : List (String × List String)) (c : String) : Option String :=
  tbl.foldl (fun acc kv => if entryMatches c kv.2 then some kv.1 else acc) none

/-- pandas `drop_duplicates()` semantics: remove later duplicates, keeping the
first occurrence of each element. -/
def dedupFirst {α : Type} [DecidableEq α] (l : List α) : List α :=
  l.reverse.dedup.reverse

theorem dedupFirst_nodup {α : Type} [DecidableEq α] (l : List α) :
    (dedupFirst l).Nodup := by
  simpa [dedupFirst] using (l.reverse.nodup_dedup)

theorem mem_dedupFirst {α : Type} [DecidableEq α] {a : α} {l : List α} :
    a ∈ dedupFirst l ↔ a ∈ l := by
  simp [dedupFirst]

/-- The classifier returns the last matching table entry: it agrees with a
first-match search over the reversed table. -/
theorem classify_eq_find_rev (tbl : List (String × List String)) (c : String) :
    classify tbl c
      = (tbl.reverse.find? (fun kv => entryMatches c kv.2)).map Prod.fst := by
  induction tbl using List.reverseRecOn with
  | nil => rfl
  | append_singleton l a ih =>
    by_cases h : entryMatches c a.2
    · simp [classify, List.foldl_append, h]
    · simpa [classify, List.foldl_append, h] using ih

theorem classify_some_matches {tbl : List (String × List String)} {c k : String}
    (h : classify tbl c = some k) :
    ∃ v, (k, v) ∈ tbl ∧ entryMatches c v = true := by
  rw [classify_eq_find_rev] at h
  rcases Option.map_eq_some'.mp h with ⟨kv, hfind, hfst⟩
  have hp := List.find?_some hfind
  refine ⟨kv.2, ?_, by simpa using hp⟩
  have : kv ∈ tbl.reverse := List.mem_of_find?_eq_some hfind
  rw [List.mem_reverse] at this
  simpa [← hfst] using this

theorem classify_eq_none_of_no_match {tbl : List (String × List String)}
    {c : String} (h : ∀ kv ∈ tbl, entryMatches c kv.2 = false) :
    classify tbl c = none := by
  rw [classify_eq_find_rev]
  have : tbl.reverse.find? (fun kv => entryMatches c kv.2) = none := by
    rw [List.find?_eq_none]
    intro kv hkv
    simp [h kv (List.mem_reverse.mp hkv)]
  simp [this]

theorem classify_eq_some_of_match {tbl : List (String × List String)}
    {c k : String} {v : List String}
    (huniq : ∀ e1 ∈ tbl, ∀ e2 ∈ tbl,
      entryMatches c e1.2 = true → entryMatches c e2.2 = true → e1.1 = e2.1)
    (hmem : (k, v) ∈ tbl) (hm : entryMatches c v = true) :
    classify tbl c = some k := by
  rw [classify_eq_find_rev]
  have hne : tbl.reverse.find? (fun kv => entryMatches c kv.2) ≠ none := by
    intro hnone
    rw [List.find?_eq_none] at hnone
    exact absurd hm (by simpa using hnone (k, v) (List.mem_reverse.mpr hmem))
  rcases Option.ne_none_iff_exists'.mp hne with ⟨kv, hfind⟩
  have hkvmem : kv ∈ tbl := List.mem_reverse.mp (List.mem_of_find?_eq_some hfind)
  have hp := List.find?_some hfind
  have hkvm : entryMatches c kv.2 = true := by simpa using hp
  have : kv.1 = k := huniq kv hkvmem (k, v) hmem hkvm hm
  simp [hfind, this]

/-- The three fixed Charlson exclusion pairs of assignzero.py (lesser, greater):
mild vs moderate/severe liver disease, diabetes vs diabetes with
complications, cancer vs metastatic solid tumour. -/
def charlsonPairs : List (String × String) :=
  [("mld", "msld"), ("diab", "diabwc"), ("canc", "metacanc")]

/-- The three fixed Elixhauser exclusion pairs of assignzero.py. -/
def elixhauserPairs : List (String × String) :=
  [("hypunc", "hypc"), ("diabunc", "diabc"), ("solidtum", "metacanc")]

/-- One statement of assignzero.py, e.g. line 8:
`df.mld = df.mld.where(df.msld == 0, 0)` — the target column keeps its value
where the guard column is 0 and is forced to 0 elsewhere. -/
def whereZero (f : String → Nat) (target guard : String) : String → Nat :=
  fun c => if c = target then (if f guard = 0 then f target else 0) else f c

/-- assignzero.py: dispatch on a substring of the score key, then zero the
lesser member of each exclusion pair wherever the greater member is set. -/
def assignzero (score : String) (f : String → Nat) : String → Nat :=
  if strContains score "charlson" then
    whereZero (whereZero (whereZero f "mld" "msld") "diab" "diabwc") "canc" "metacanc"
  else if strContains score "elixhauser" then
    whereZero (whereZero (whereZero f "hypunc" "hypc") "diabunc" "diabc") "solidtum" "metacanc"
  else f

/-- Line 39 of calculator.py, for one pivoted row: `df.multiply(w).sum(axis=1)`.
pandas aligns columns with the weight series by name; a column with no weight
entry becomes NaN after `multiply` and the default `sum` skips NaN, so such a
column contributes nothing to the sum. -/
def weightedSum (w : List (String × ℤ)) (cols : List String) (f : String → Nat) : ℤ :=
  (cols.map (fun c =>
    match w.lookup c with
    | some wt => (f c : ℤ) * wt
    | none => 0)).sum

/-- A scored output row: the raw indicator flags surfaced to the caller plus
the `comorbidity_score` column. -/
structure ScoredRow where
  flags : String → Nat
  comorbidity_score : ℤ

/-- Lines 21-44 of calculator.py (`_calculate_weighted_score`), one row: score
a scoring-only copy of the row (with assignzero applied when `assign0`), clamp
negative sums to 0, and return the ORIGINAL flags next to the score. -/
def calculateWeightedScore (w : List (String × ℤ)) (cols : List String)
    (paramScore : String) (assign0 : Bool) (f : String → Nat) : ScoredRow :=
  let df := if assign0 then assignzero paramScore f else f
  let s := weightedSum w cols df
  { flags := f, comorbidity_score := if 0 ≤ s then s else 0 }

/-- Line 36 of calculator.py: `weights[param_score][weighting]` — a Python
KeyError when either key is absent from the nested weight table. -/
def getWeightMap (wt : List (String × List (String × List (String × ℤ))))
    (paramScore weighting : String) : Except String (List (String × ℤ)) :=
  match wt.lookup paramScore with
  | none => Except.error "KeyError"
  | some m =>
    match m.lookup weighting with
    | none => Except.error "KeyError"
    | some w => Except.ok w

/-- The scoring step including the weight-table lookup of line 36: the only
error `_calculate_weighted_score` can raise is the KeyError of that lookup. -/
def calculateWeightedScoreChecked (wt : List (String × List (String × List (String × ℤ))))
    (paramScore weighting : String) (cols : List String) (assign0 : Bool)
    (f : String → Nat) : Except String ScoredRow :=
  match getWeightMap wt paramScore weighting with
  | Except.error e => Except.error e
  | Except.ok w => Except.ok (calculateWeightedScore w cols paramScore assign0 f)

/-- Projection used to observe a checked scoring result. -/
def checkedScore (e : Except String ScoredRow) : Option ℤ :=
  e.toOption.map (fun r => r.comorbidity_score)

/-- The summand two exclusion-pair columns contribute to `weightedSum`
(with the pandas NaN-skipping convention: a missing weight contributes 0). -/
def pairContribution (w : List (String × ℤ)) (f : String → Nat)
    (lesser greater : String) : ℤ :=
  (f lesser : ℤ) * ((w.lookup lesser).getD 0)
    + (f greater : ℤ) * ((w.lookup greater).getD 0)

/-- Line 99 of calculator.py: `df.dropna(subset=[id, code])` — keep only rows
where both the identifier and the code are present. -/
def dropna (rows : List (Option Nat × Option String)) : List (Nat × String) :=
  rows.filterMap (fun r =>
    match r with
    | (some i, some c) => some (i, c)
    | _ => none)

/-- Lines 104/106 of calculator.py: the deduplicated identifier list (the age
branch deduplicates the id/age frame on the id column only, so both branches
keep one entry per distinct surviving identifier, first occurrence first). -/
def dfIds (rows : List (Option Nat × Option String)) : List Nat :=
  dedupFirst ((dropna rows).map Prod.fst)

/-- Lines 124-132 of calculator.py: blank out codes absent from the reverse
mapping and drop them, deduplicate (id, raw code), replace each code by its
category, then deduplicate (id, category) so a category counts once per id. -/
def mappedPairs (tbl : List (String × List String))
    (rows : List (Option Nat × Option String)) : List (Nat × String) :=
  let df := dropna rows
  let kept := dedupFirst (df.filter (fun p => (classify tbl p.2).isSome))
  dedupFirst (kept.filterMap (fun p => (classify tbl p.2).map (fun k => (p.1, k))))

/-- Identifiers that own at least one mapped code: the index of the pivot of
line 136. -/
def pivotIds (tbl : List (String × List String))
    (rows : List (Option Nat × Option String)) : List Nat :=
  dedupFirst ((mappedPairs tbl rows).map Prod.fst)

/-- Categories observed in the data: the columns produced by the pivot of
line 136. -/
def pivotColumns (tbl : List (String × List String))
    (rows : List (Option Nat × Option String)) : List String :=
  dedupFirst ((mappedPairs tbl rows).map Prod.snd)

/-- Lines 140-143 of calculator.py: append, with value 0, every taxonomy
column missing from the pivot. -/
def completedColumns (pcols colnames : List String) : List String :=
  pcols ++ colnames.filter (fun c => !pcols.contains c)

/-- The full column set of the flag matrix handed to the score aggregator. -/
def comorbidityColumns (tbl : List (String × List String)) (colnames : List String)
    (rows : List (Option Nat × Option String)) : List String :=
  completedColumns (pivotColumns tbl rows) colnames

/-- The pivoted flag row of one identifier (line 136 with `fillna(0)`, plus
the zero back-fill of lines 140-143): 1 exactly on the categories some of the
identifier's codes mapped to. -/
def flagsOf (tbl : List (String × List String))
    (rows : List (Option Nat × Option String)) (i : Nat) : String → Nat :=
  fun c => if (i, c) ∈ mappedPairs tbl rows then 1 else 0

/-- Lines 146-158 of calculator.py at value level (identifier / flag / score
structure; the age branch adds further columns but keeps the same one row per
identifier): score each pivot row, then left-merge onto the deduplicated
identifier list, `fillna(0)` giving identifiers with no mapped code an
all-zero row. -/
def comorbidityModel (tbl : List (String × List String)) (w : List (String × ℤ))
    (colnames : List String) (paramScore : String) (assign0 : Bool)
    (rows : List (Option Nat × Option String)) : List (Nat × ScoredRow) :=
  let cols := comorbidityColumns tbl colnames rows
  (dfIds rows).map (fun i =>
    if i ∈ pivotIds tbl rows then
      (i, calculateWeightedScore w cols paramScore assign0 (flagsOf tbl rows i))
    else
      (i, { flags := fun _ => 0, comorbidity_score := 0 }))

/-- Python `str.lstrip()`: strip leading whitespace. -/
def lstrip (s : String) : String :=
  ⟨s.data.dropWhile Char.isWhitespace⟩

/-- Python `x.lstrip()[0:3].upper()`, the HFRS key normalisation of
calculator.py line 193. -/
def hfrsKey (x : String) : String :=
  ⟨((lstrip x).data.take 3).map Char.toUpper⟩

/-- Lines 190-196 of calculator.py (`_mapper`, minus the memoisation, which
does not change the value): the normalised key when it is in the HFRS map,
otherwise `None`. -/
def hfrsMapper (m : List (String × ℚ)) (x : String) : Option String :=
  if (m.lookup (hfrsKey x)).isSome then some (hfrsKey x) else none

/-- Line 202 of calculator.py: `df[[id, code]].dropna().drop_duplicates()`. -/
def hfrsDf (rows : List (Option Nat × Option String)) : List (Nat × String) :=
  dedupFirst (dropna rows)

/-- Lines 198-217 of calculator.py (`hfrs`): map codes to normalised keys,
drop misses, deduplicate (id, key), sum the mapped weights per identifier,
and left-merge onto the full identifier list with `fillna(0)`. -/
def hfrsModel (m : List (String × ℚ))
    (rows : List (Option Nat × Option String)) : List (Nat × ℚ) :=
  let df := hfrsDf rows
  let dfid := dedupFirst (df.map Prod.fst)
  let mapped := dedupFirst (df.filterMap (fun p =>
    (hfrsMapper m p.2).map (fun k => (p.1, k))))
  dfid.map (fun i =>
    (i, ((mapped.filter (fun p => p.1 == i)).map
      (fun p => (m.lookup p.2).getD 0)).sum))

/-- Line 49 of calculator.py:
`dfp[age].subtract(40).floordiv(10).apply(lambda x: min(max(0, x), 4))`.
pandas `floordiv` on integers is Python floor division. -/
def decadeScore (age : Int) : Int :=
  min (max 0 ((age - 40).fdiv 10)) 4

/-- Line 50 of calculator.py: the age-adjusted score. -/
def ageAdjScore (score : ℤ) (age : Int) : ℤ :=
  score + decadeScore age

/-- Lines 153-156 of calculator.py: the 10-year survival transform
`0.983 ** math.exp(0.9 * x)` (modelled over the reals). -/
noncomputable def survival10yr (x : ℝ) : ℝ :=
  (0.983 : ℝ) ^ Real.exp (0.9 * x)

/-- Lines 149-156 of calculator.py: the survival column is added exactly when
an age column was supplied AND score == "charlson" AND weighting ==
"charlson". -/
def outputHasSurvival (ageGiven : Bool) (score weighting : String) : Bool :=
  ageGiven && (score == "charlson" && weighting == "charlson")

/-- pandas `drop_duplicates(subset=s)`: KeyError when a subset column is
absent from the frame. -/
def subsetCheck (cols subset : List String) : Except String Unit :=
  if subset.all (fun c => cols.contains c) then Except.ok () else Except.error "KeyError"

/-- Line 104 of calculator.py: when an age column is supplied,
`df[[id, age]].drop_duplicates(subset=['id'])` — the selected frame has the
columns [idCol, ageCol] and the dedup subset is the hard-coded ['id']. -/
def ageDedupStep (idCol ageCol : String) : Except String Unit :=
  subsetCheck [idCol, ageCol] ["id"]

/-- Length of the longest prefix of an entry's prefix set that starts the
code (0 when none does). -/
def bestLen (c : String) (v : List String) : Nat :=
  ((v.filter (fun p => strStartsWith c p)).map (fun p => p.data.length)).foldl Nat.max 0

/-- Modelled from the spec: "resolves each raw code to zero-or-one category
using longest-applicable-prefix matching against the Category Mapping Table"
— the matching entry owning the longest matching prefix wins (first such
entry on ties). Stated only for comparison with `classify`, which is what
calculator.py actually does. -/
def classifyLongestPref (tbl : List (String × List String)) (c : String) : Option String :=
  ((tbl.filter (fun kv => entryMatches c kv.2)).foldl
    (fun acc kv =>
      match acc with
      | none => some kv
      | some b => if bestLen c b.2 < bestLen c kv.2 then some kv else some b)
    none).map Prod.fst

/-- C6: the age adjuster computes
`decade_score = clamp(floor((age - 40) / 10), 0, 4)` with mathematical floor
and the clamp applied after the floor, adds it to the comorbidity score, is
monotonic non-decreasing in age, lies in {0,...,4}, and maps age 39 to 0,
age 40 to 0 and every age of at least 80 to 4. -/
theorem C6_age_adjustment :
    (∀ (s : ℤ) (a : ℤ), ageAdjScore s a = s + decadeScore a)
    ∧ (∀ a : ℤ, decadeScore a = min (max 0 ⌊((a : ℚ) - 40) / 10⌋) 4)
    ∧ (∀ a b : ℤ, a ≤ b → decadeScore a ≤ decadeScore b)
    ∧ (∀ a : ℤ, 0 ≤ decadeScore a ∧ decadeScore a ≤ 4)
    ∧ decadeScore 39 = 0 ∧ decadeScore 40 = 0
    ∧ (∀ a : ℤ, 80 ≤ a → decadeScore a = 4) := by
  have hfloor : ∀ a : ℤ, ⌊((a : ℚ) - 40) / 10⌋ = (a - 40).fdiv 10 := by
    intro a
    have h1 : ((a : ℚ) - 40) / 10 = ((a - 40 : ℤ) : ℚ) / ((10 : ℕ) : ℚ) := by
      push_cast
      ring
    rw [h1, Rat.floor_intCast_div_natCast, Int.fdiv_eq_ediv _ (by norm_num)]
    norm_num
  refine ⟨fun s a => rfl, ?_, ?_, ?_, by decide, by decide, ?_⟩
  · intro a
    rw [decadeScore, hfloor]
  · intro a b hab
    have hd : (a - 40).fdiv 10 ≤ (b - 40).fdiv 10 := by
      rw [Int.fdiv_eq_ediv _ (by norm_num), Int.fdiv_eq_ediv _ (by norm_num)]
      exact Int.ediv_le_ediv (by norm_num) (by omega)
    rw [decadeScore, decadeScore]
    omega
  · intro a
    rw [decadeScore]
    omega
  · intro a h80
    have hd : (4 : ℤ) ≤ (a - 40).fdiv 10 := by
      rw [Int.fdiv_eq_ediv _ (by norm_num)]
      have h := Int.ediv_le_ediv (by norm_num : (0:ℤ) < 10) (by omega : (40:ℤ) ≤ a - 40)
      simpa using h
    rw [decadeScore]
    omega

/-- Witness for C6 at concrete inputs: ages 30 and 85 for monotonicity and the
cap at 4 for age 85. -/
theorem C6_age_adjustment_witness :
    ((30 : ℤ) ≤ 85 ∧ decadeScore 30 ≤ decadeScore 85)
    ∧ ((80 : ℤ) ≤ 85 ∧ decadeScore 85 = 4) :=
  ⟨⟨by decide, C6_age_adjustment.2.2.1 30 85 (by decide)⟩,
   ⟨by decide, C6_age_adjustment.2.2.2.2.2.2 85 (by decide)⟩⟩

/-- C7: the survival column is present exactly when an age column is supplied,
the score family is charlson and the weighting variant is charlson; the
transform `0.983 ^ exp(0.9 x)` is strictly decreasing in x and lies in
(0, 1]. -/
theorem C7_survival_transform :
    (∀ (ageGiven : Bool) (score weighting : String),
      outputHasSurvival ageGiven score weighting = true
        ↔ (ageGiven = true ∧ score = "charlson" ∧ weighting = "charlson"))
    ∧ (∀ x y : ℝ, x < y → survival10yr y < survival10yr x)
    ∧ (∀ x : ℝ, 0 < survival10yr x ∧ survival10yr x ≤ 1) := by
  refine ⟨?_, ?_, ?_⟩
  · intro ag s wg
    simp [outputHasSurvival, Bool.and_eq_true, beq_iff_eq]
  · intro x y hxy
    simp only [survival10yr]
    exact Real.rpow_lt_rpow_of_exponent_gt (by norm_num) (by norm_num)
      (Real.exp_lt_exp.mpr (by linarith))
  · intro x
    exact ⟨Real.rpow_pos_of_pos (by norm_num) _,
      Real.rpow_le_one (by norm_num) (by norm_num) (Real.exp_pos _).le⟩

/-- Witness for C7: the transform strictly decreases from x = 0 to x = 1 and
is positive at 0. -/
theorem C7_survival_transform_witness :
    ((0 : ℝ) < 1 ∧ survival10yr 1 < survival10yr 0) ∧ 0 < survival10yr 0 :=
  ⟨⟨by norm_num, C7_survival_transform.2.1 0 1 (by norm_num)⟩,
   (C7_survival_transform.2.2 0).1⟩

/-- Counterexample to C9 as stated: with the table {A: ["XY"], B: ["X"]} both
categories match the code "XYZ"; longest-applicable-prefix matching picks A
(prefix "XY"), but the code's reverse-mapping comprehension keeps the LAST
matching entry and yields B. -/
theorem C9_longest_match_counterexample :
    classify [("A", ["XY"]), ("B", ["X"])] "XYZ" = some "B"
    ∧ classifyLongestPref [("A", ["XY"]), ("B", ["X"])] "XYZ" = some "A"
    ∧ classify [("A", ["XY"]), ("B", ["X"])] "XYZ"
        ≠ classifyLongestPref [("A", ["XY"]), ("B", ["X"])] "XYZ" := by
  decide

/-- C9 amended: the classifier resolves each raw code to zero-or-one category
deterministically — not by longest prefix, but by the LAST matching entry in
the mapping table's iteration order (equivalently, the first match over the
reversed table). -/
theorem C9_last_match_wins (tbl : List (String × List String)) (c : String) :
    classify tbl c
      = (tbl.reverse.find? (fun kv => entryMatches c kv.2)).map Prod.fst :=
  classify_eq_find_rev tbl c

/-- Counterexample to C10 as stated: with the identifier column named
"patient" and the age column named "id", the hard-coded
`drop_duplicates(subset=['id'])` finds the (age) column named 'id' and does
NOT raise, although the identifier column is not named 'id'. -/
theorem C10_age_dedup_counterexample :
    (ageDedupStep "patient" "id").isOk = true ∧ "patient" ≠ "id" := by
  decide

/-- C10 amended: with an age column supplied, the age deduplication step
raises KeyError exactly when neither of the two selected columns (identifier
column, age column) is literally named 'id' — in particular for every
identifier column name other than 'id' as long as the age column is not
itself named 'id'. -/
theorem C10_age_dedup_keyerror_iff (idCol ageCol : String) :
    (ageDedupStep idCol ageCol).isOk = false ↔ (idCol ≠ "id" ∧ ageCol ≠ "id") := by
  rcases eq_or_ne idCol "id" with h1 | h1
  · subst h1
    simp [ageDedupStep, subsetCheck, Except.isOk, Except.toBool]
  · rcases eq_or_ne ageCol "id" with h2 | h2
    · subst h2
      simp [ageDedupStep, subsetCheck, Except.isOk, Except.toBool]
    · simp [ageDedupStep, subsetCheck, Except.isOk, Except.toBool,
        List.contains_cons, h1, h2, Ne.symm h1, Ne.symm h2]

/-- Counterexample to C5 as stated: the flag matrix has the column "foo"
flagged 1, "foo" has no entry in the active weight map, and yet the score
aggregator raises nothing: it returns the score 2 contributed by "bar" alone
(pandas drops the unweighted column as NaN under the default skipna sum). -/
theorem C5_missing_weight_counterexample :
    (List.lookup "foo" [("bar", (2:ℤ))]).isSome = false
    ∧ "foo" ∈ ["foo", "bar"]
    ∧ checkedScore (calculateWeightedScoreChecked [("cs", [("quan", [("bar", (2:ℤ))])])]
        "cs" "quan" ["foo", "bar"] false (fun _ => 1)) = some 2 := by
  decide

/-- C5 amended: a category present in the flag matrix but missing from the
active weight map is silently skipped by the aggregation (it contributes
nothing), and the only hard KeyError of the aggregator is the lookup of the
(score-key, weighting-variant) pair itself. -/
theorem C5_missing_weight_skipped :
    (∀ (w : List (String × ℤ)) (cols : List String) (f : String → Nat),
      weightedSum w cols f
        = weightedSum w (cols.filter (fun c => (w.lookup c).isSome)) f)
    ∧ (∀ (wt : List (String × List (String × List (String × ℤ)))) (k1 k2 : String),
      (getWeightMap wt k1 k2).isOk = true
        ↔ ((wt.lookup k1).bind (fun m => m.lookup k2)).isSome = true) := by
  constructor
  · intro w cols f
    induction cols with
    | nil => rfl
    | cons c cs ih =>
      rcases h : w.lookup c with _ | wt
      · simp [weightedSum, List.filter_cons, h] at ih ⊢
        exact ih
      · simp [weightedSum, List.filter_cons, h] at ih ⊢
        exact ih
  · intro wt k1 k2
    rcases h1 : wt.lookup k1 with _ | m
    · simp [getWeightMap, h1, Except.isOk, Except.toBool]
    · rcases h2 : m.lookup k2 with _ | w
      · simp [getWeightMap, h1, h2, Except.isOk, Except.toBool]
      · simp [getWeightMap, h1, h2, Except.isOk, Except.toBool]

/-- C1: when both members of a mutual-exclusion pair of the active score
family are flagged and exclusion is enabled — the three Charlson pairs under
the charlson branch of assignzero.py, the three Elixhauser pairs under its
elixhauser branch — the pair's scoring contribution is the greater category's
weight alone; the scoring copy has the lesser flag forced to 0 and the
greater kept at 1, while the row returned to the caller keeps both raw flags
at 1. -/
theorem C1_mutual_exclusion (w : List (String × ℤ)) (cols : List String)
    (paramScore : String) (f : String → Nat) (l g : String)
    (hp : (strContains paramScore "charlson" = true ∧ (l, g) ∈ charlsonPairs)
      ∨ (strContains paramScore "charlson" = false
          ∧ strContains paramScore "elixhauser" = true
          ∧ (l, g) ∈ elixhauserPairs))
    (hl : f l = 1) (hg : f g = 1) :
    pairContribution w (assignzero paramScore f) l g = (w.lookup g).getD 0
    ∧ assignzero paramScore f l = 0
    ∧ assignzero paramScore f g = 1
    ∧ (calculateWeightedScore w cols paramScore true f).flags l = 1
    ∧ (calculateWeightedScore w cols paramScore true f).flags g = 1 := by
  have hfl : (calculateWeightedScore w cols paramScore true f).flags = f := rfl
  rcases hp with ⟨hch, hp⟩ | ⟨hch, hche, hp⟩
  · simp only [charlsonPairs, List.mem_cons, List.not_mem_nil, or_false,
      Prod.mk.injEq] at hp
    rcases hp with ⟨rfl, rfl⟩ | ⟨rfl, rfl⟩ | ⟨rfl, rfl⟩
    · have e1 : assignzero paramScore f "mld" = 0 := by
        simp [assignzero, hch, whereZero, hg]
      have e2 : assignzero paramScore f "msld" = 1 := by
        simp [assignzero, hch, whereZero, hg]
      refine ⟨?_, e1, e2, by rw [hfl]; exact hl, by rw [hfl]; exact hg⟩
      simp only [pairContribution, e1, e2]
      push_cast
      ring
    · have e1 : assignzero paramScore f "diab" = 0 := by
        simp [assignzero, hch, whereZero, hg]
      have e2 : assignzero paramScore f "diabwc" = 1 := by
        simp [assignzero, hch, whereZero, hg]
      refine ⟨?_, e1, e2, by rw [hfl]; exact hl, by rw [hfl]; exact hg⟩
      simp only [pairContribution, e1, e2]
      push_cast
      ring
    · have e1 : assignzero paramScore f "canc" = 0 := by
        simp [assignzero, hch, whereZero, hg]
      have e2 : assignzero paramScore f "metacanc" = 1 := by
        simp [assignzero, hch, whereZero, hg]
      refine ⟨?_, e1, e2, by rw [hfl]; exact hl, by rw [hfl]; exact hg⟩
      simp only [pairContribution, e1, e2]
      push_cast
      ring
  · simp only [elixhauserPairs, List.mem_cons, List.not_mem_nil, or_false,
      Prod.mk.injEq] at hp
    rcases hp with ⟨rfl, rfl⟩ | ⟨rfl, rfl⟩ | ⟨rfl, rfl⟩
    · have e1 : assignzero paramScore f "hypunc" = 0 := by
        simp [assignzero, hch, hche, whereZero, hg]
      have e2 : assignzero paramScore f "hypc" = 1 := by
        simp [assignzero, hch, hche, whereZero, hg]
      refine ⟨?_, e1, e2, by rw [hfl]; exact hl, by rw [hfl]; exact hg⟩
      simp only [pairContribution, e1, e2]
      push_cast
      ring
    · have e1 : assignzero paramScore f "diabunc" = 0 := by
        simp [assignzero, hch, hche, whereZero, hg]
      have e2 : assignzero paramScore f "diabc" = 1 := by
        simp [assignzero, hch, hche, whereZero, hg]
      refine ⟨?_, e1, e2, by rw [hfl]; exact hl, by rw [hfl]; exact hg⟩
      simp only [pairContribution, e1, e2]
      push_cast
      ring
    · have e1 : assignzero paramScore f "solidtum" = 0 := by
        simp [assignzero, hch, hche, whereZero, hg]
      have e2 : assignzero paramScore f "metacanc" = 1 := by
        simp [assignzero, hch, hche, whereZero, hg]
      refine ⟨?_, e1, e2, by rw [hfl]; exact hl, by rw [hfl]; exact hg⟩
      simp only [pairContribution, e1, e2]
      push_cast
      ring

/-- A concrete flag row with both liver-disease flags set, for the Charlson
half of the C1 witness. -/
def c1f : String → Nat := fun c => if c = "mld" ∨ c = "msld" then 1 else 0

/-- A concrete flag row with both hypertension flags set, for the Elixhauser
half of the C1 witness. -/
def c1fe : String → Nat := fun c => if c = "hypunc" ∨ c = "hypc" then 1 else 0

/-- Witness for C1: the Charlson (mld, msld) pair with weights 1 and 3, and
the Elixhauser (hypunc, hypc) pair with weights 2 and 5. -/
theorem C1_mutual_exclusion_witness :
    (((strContains "charlson_icd10_quan" "charlson" = true
        ∧ ("mld", "msld") ∈ charlsonPairs)
      ∨ (strContains "charlson_icd10_quan" "charlson" = false
          ∧ strContains "charlson_icd10_quan" "elixhauser" = true
          ∧ ("mld", "msld") ∈ elixhauserPairs))
      ∧ c1f "mld" = 1 ∧ c1f "msld" = 1
      ∧ (pairContribution [("mld", (1:ℤ)), ("msld", (3:ℤ))]
            (assignzero "charlson_icd10_quan" c1f) "mld" "msld"
          = (([("mld", (1:ℤ)), ("msld", (3:ℤ))]).lookup "msld").getD 0
        ∧ assignzero "charlson_icd10_quan" c1f "mld" = 0
        ∧ assignzero "charlson_icd10_quan" c1f "msld" = 1
        ∧ (calculateWeightedScore [("mld", (1:ℤ)), ("msld", (3:ℤ))]
            ["mld", "msld"] "charlson_icd10_quan" true c1f).flags "mld" = 1
        ∧ (calculateWeightedScore [("mld", (1:ℤ)), ("msld", (3:ℤ))]
            ["mld", "msld"] "charlson_icd10_quan" true c1f).flags "msld" = 1))
    ∧ (((strContains "elixhauser_icd10_vw" "charlson" = true
        ∧ ("hypunc", "hypc") ∈ charlsonPairs)
      ∨ (strContains "elixhauser_icd10_vw" "charlson" = false
          ∧ strContains "elixhauser_icd10_vw" "elixhauser" = true
          ∧ ("hypunc", "hypc") ∈ elixhauserPairs))
      ∧ c1fe "hypunc" = 1 ∧ c1fe "hypc" = 1
      ∧ (pairContribution [("hypunc", (2:ℤ)), ("hypc", (5:ℤ))]
            (assignzero "elixhauser_icd10_vw" c1fe) "hypunc" "hypc"
          = (([("hypunc", (2:ℤ)), ("hypc", (5:ℤ))]).lookup "hypc").getD 0
        ∧ assignzero "elixhauser_icd10_vw" c1fe "hypunc" = 0
        ∧ assignzero "elixhauser_icd10_vw" c1fe "hypc" = 1
        ∧ (calculateWeightedScore [("hypunc", (2:ℤ)), ("hypc", (5:ℤ))]
            ["hypunc", "hypc"] "elixhauser_icd10_vw" true c1fe).flags "hypunc" = 1
        ∧ (calculateWeightedScore [("hypunc", (2:ℤ)), ("hypc", (5:ℤ))]
            ["hypunc", "hypc"] "elixhauser_icd10_vw" true c1fe).flags "hypc" = 1)) :=
  ⟨⟨by decide, by decide, by decide,
    C1_mutual_exclusion [("mld", (1:ℤ)), ("msld", (3:ℤ))] ["mld", "msld"]
      "charlson_icd10_quan" c1f "mld" "msld" (by decide) (by decide) (by decide)⟩,
   ⟨by decide, by decide, by decide,
    C1_mutual_exclusion [("hypunc", (2:ℤ)), ("hypc", (5:ℤ))] ["hypunc", "hypc"]
      "elixhauser_icd10_vw" c1fe "hypunc" "hypc" (by decide) (by decide)
      (by decide)⟩⟩

set_option maxHeartbeats 1000000 in
/-- C2: every comorbidity_score in the output of the comorbidity pipeline is
non-negative, for every mapping table, weight table (negative weights
included) and input. -/
theorem C2_comorbidity_score_nonneg (tbl : List (String × List String))
    (w : List (String × ℤ)) (colnames : List String) (paramScore : String)
    (assign0 : Bool) (rows : List (Option Nat × Option String)) :
    ∀ q ∈ (comorbidityModel tbl w colnames paramScore assign0 rows).map
        (fun p => p.2.comorbidity_score), 0 ≤ q := by
  have hclamp : ∀ s : ℤ, (0:ℤ) ≤ if 0 ≤ s then s else 0 := by
    intro s
    split
    next hs => exact hs
    next => exact le_rfl
  intro q hq
  simp only [comorbidityModel, List.map_map, List.mem_map, Function.comp] at hq
  obtain ⟨i, _, hqe⟩ := hq
  rw [← hqe]
  split
  · exact hclamp _
  · exact le_rfl

/-- Witness for C2: a one-row input scoring 1. -/
theorem C2_comorbidity_score_nonneg_witness :
    ((1:ℤ) ∈ (comorbidityModel [("cat", ["A"])] [("cat", (1:ℤ))] ["cat"] "x" false
        [(some 1, some "A1")]).map (fun p => p.2.comorbidity_score))
    ∧ (0:ℤ) ≤ 1 :=
  ⟨by decide,
   C2_comorbidity_score_nonneg [("cat", ["A"])] [("cat", (1:ℤ))] ["cat"] "x"
     false [(some 1, some "A1")] 1 (by decide)⟩

/-- C4: under the spec's constraint that at most one category matches a code,
the classifier maps a code to category C iff one of C's prefixes starts the
code; a code matching no prefix is silently dropped (mapped to `none`, no
error); and after mapping, each (identifier, category) pair occurs at most
once. -/
theorem C4_classifier_contract :
    (∀ (tbl : List (String × List String)) (c k : String),
      (∀ e1 ∈ tbl, ∀ e2 ∈ tbl,
        entryMatches c e1.2 = true → entryMatches c e2.2 = true → e1.1 = e2.1) →
      (classify tbl c = some k ↔ ∃ v, (k, v) ∈ tbl ∧ entryMatches c v = true))
    ∧ (∀ (tbl : List (String × List String)) (c : String),
      (∀ kv ∈ tbl, entryMatches c kv.2 = false) → classify tbl c = none)
    ∧ (∀ (tbl : List (String × List String))
        (rows : List (Option Nat × Option String)),
        (mappedPairs tbl rows).Nodup) := by
  refine ⟨?_, ?_, ?_⟩
  · intro tbl c k huniq
    constructor
    · exact fun h => classify_some_matches h
    · rintro ⟨v, hmem, hm⟩
      exact classify_eq_some_of_match huniq hmem hm
  · intro tbl c h
    exact classify_eq_none_of_no_match h
  · intro tbl rows
    exact dedupFirst_nodup _

/-- Witness for C4: a one-entry table where "A1" matches "cat" via prefix
"A", plus the dedup bound on a two-code input mapping twice to "cat". -/
theorem C4_classifier_contract_witness :
    (∀ e1 ∈ [("cat", ["A"])], ∀ e2 ∈ [("cat", ["A"])],
      entryMatches "A1" e1.2 = true → entryMatches "A1" e2.2 = true → e1.1 = e2.1)
    ∧ (classify [("cat", ["A"])] "A1" = some "cat"
        ↔ ∃ v, ("cat", v) ∈ [("cat", ["A"])] ∧ entryMatches "A1" v = true)
    ∧ (mappedPairs [("cat", ["A"])]
        [(some 1, some "A1"), (some 1, some "A2")]).Nodup :=
  ⟨by decide, C4_classifier_contract.1 [("cat", ["A"])] "A1" "cat" (by decide),
   C4_classifier_contract.2.2 _ _⟩

/-- C8: every taxonomy column appears among the output columns, and when no
input code of any identifier mapped to it, every output row carries flag 0
there. -/
theorem C8_column_completeness (tbl : List (String × List String))
    (colnames : List String) (rows : List (Option Nat × Option String))
    (c : String) (hc : c ∈ colnames) :
    c ∈ comorbidityColumns tbl colnames rows
    ∧ ((mappedPairs tbl rows).all (fun p => !(p.2 == c)) = true →
        ∀ (w : List (String × ℤ)) (paramScore : String) (assign0 : Bool)
          (q : Nat × ScoredRow),
          q ∈ comorbidityModel tbl w colnames paramScore assign0 rows →
          q.2.flags c = 0) := by
  constructor
  · by_cases hm : c ∈ pivotColumns tbl rows
    · exact List.mem_append_left _ hm
    · refine List.mem_append_right _ ?_
      refine List.mem_filter.mpr ⟨hc, ?_⟩
      simp [hm]
  · intro hall w ps a0 q hq
    simp only [comorbidityModel, List.mem_map] at hq
    obtain ⟨i, _, hqe⟩ := hq
    have hnot : (i, c) ∉ mappedPairs tbl rows := by
      intro hmem
      have h2 := List.all_eq_true.mp hall _ hmem
      simp at h2
    by_cases hmem : i ∈ pivotIds tbl rows
    · rw [if_pos hmem] at hqe
      rw [← hqe]
      show flagsOf tbl rows i c = 0
      simp [flagsOf, hnot]
    · rw [if_neg hmem] at hqe
      rw [← hqe]

/-- Witness for C8: the taxonomy column "other" is materialized as all-zero
when only "cat" matched. -/
theorem C8_column_completeness_witness :
    ("other" ∈ ["cat", "other"])
    ∧ ("other" ∈ comorbidityColumns [("cat", ["A"])] ["cat", "other"]
        [(some 1, some "A1")]
      ∧ ((mappedPairs [("cat", ["A"])] [(some 1, some "A1")]).all
            (fun p => !(p.2 == "other")) = true →
          ∀ (w : List (String × ℤ)) (paramScore : String) (assign0 : Bool)
            (q : Nat × ScoredRow),
            q ∈ comorbidityModel [("cat", ["A"])] w ["cat", "other"] paramScore
              assign0 [(some 1, some "A1")] →
            q.2.flags "other" = 0)) :=
  ⟨by decide, C8_column_completeness _ _ _ "other" (by decide)⟩

/-- C3: every identifier surviving the id/code null-filter appears exactly
once among the output rows of the comorbidity pipeline; and in the HFRS
pipeline an identifier none of whose codes matches any prefix still appears,
with hfrs = 0. -/
theorem C3_identifier_completeness :
    (∀ (tbl : List (String × List String)) (w : List (String × ℤ))
        (colnames : List String) (paramScore : String) (assign0 : Bool)
        (rows : List (Option Nat × Option String)) (i : Nat),
      i ∈ (dropna rows).map Prod.fst →
      ((comorbidityModel tbl w colnames paramScore assign0 rows).map
        Prod.fst).count i = 1)
    ∧ (∀ (m : List (String × ℚ)) (rows : List (Option Nat × Option String)) (i : Nat),
      i ∈ (hfrsDf rows).map Prod.fst →
      (∀ p ∈ hfrsDf rows, p.1 = i → hfrsMapper m p.2 = none) →
      (i, (0:ℚ)) ∈ hfrsModel m rows) := by
  constructor
  · intro tbl w colnames ps a0 rows i hi
    have hmap : (comorbidityModel tbl w colnames ps a0 rows).map Prod.fst
        = dfIds rows := by
      simp only [comorbidityModel]
      rw [List.map_map]
      conv_rhs => rw [← List.map_id (dfIds rows)]
      apply List.map_congr_left
      intro a _
      by_cases h : a ∈ pivotIds tbl rows <;> simp [h]
    rw [hmap]
    exact List.count_eq_one_of_mem (dedupFirst_nodup _) (mem_dedupFirst.mpr hi)
  · intro m rows i hi hnone
    have hidmem : i ∈ dedupFirst ((hfrsDf rows).map Prod.fst) :=
      mem_dedupFirst.mpr hi
    have hfilter :
        ((dedupFirst ((hfrsDf rows).filterMap
            (fun p => (hfrsMapper m p.2).map (fun k => (p.1, k))))).filter
          (fun p => p.1 == i)) = [] := by
      rw [List.filter_eq_nil_iff]
      intro p hp
      have hp' := mem_dedupFirst.mp hp
      rcases List.mem_filterMap.mp hp' with ⟨q, hq, hmapq⟩
      rcases Option.map_eq_some'.mp hmapq with ⟨k, hk, hpk⟩
      rw [← hpk]
      simp only [beq_iff_eq]
      intro h1
      rw [hnone q hq h1] at hk
      simp at hk
    simp only [hfrsModel]
    refine List.mem_map.mpr ⟨i, hidmem, ?_⟩
    rw [hfilter]
    simp

/-- Witness for C3: a duplicated identifier appears once in the comorbidity
output; an identifier whose only code "zzz" matches no HFRS prefix appears
with hfrs = 0. -/
theorem C3_identifier_completeness_witness :
    ((1 : Nat) ∈ (dropna [(some 1, some "A1"), (none, some "B"),
        (some 1, some "A2")]).map Prod.fst
      ∧ ((comorbidityModel [("cat", ["A"])] [("cat", (1:ℤ))] ["cat"] "x" false
          [(some 1, some "A1"), (none, some "B"), (some 1, some "A2")]).map
            Prod.fst).count 1 = 1)
    ∧ ((1 : Nat) ∈ (hfrsDf [(some 1, some "zzz")]).map Prod.fst
      ∧ (∀ p ∈ hfrsDf [(some 1, some "zzz")], p.1 = 1 →
          hfrsMapper [("ABC", (2:ℚ))] p.2 = none)
      ∧ (1, (0:ℚ)) ∈ hfrsModel [("ABC", (2:ℚ))] [(some 1, some "zzz")]) :=
  ⟨⟨by decide, C3_identifier_completeness.1 _ _ _ _ _ _ 1 (by decide)⟩,
   ⟨by decide, by decide,
    C3_identifier_completeness.2 _ _ 1 (by decide) (by decide)⟩⟩

end Comorbidipy
